import Mathlib

/-!
Verification of the advent-stars request pipeline and SVG generator.

The definitions below are a shallow embedding of the Rust sources:
  * `src/svg/src/validation.rs` — input validation (`validate_input`)
  * `src/svg/src/lib.rs`        — SVG rendering (`generate_svg`)
  * `src/api/src/main.rs`       — rate limiter, caches and the request
    orchestrator (`check_rate_limit`, `handle_stars`)

Machine integers are modelled as `Nat`: every arithmetic operation in the
sources operates on small non-negative values (checked case by case in the
comments), so no wrap-around can occur.  Strings are Lean `String`s; the
splitting helpers reimplement the semantics of the Rust `str` methods used
by the sources (`lines`, `splitn`, `split`, `trim`, `parse`).
-/

namespace AdventStars

/-! ## String helpers mirroring Rust `str` methods -/

/-- Splits into the parts before and after the first occurrence of `sep`;
`none` when `sep` does not occur.  Mirrors Rust `splitn(2, sep)` producing
two parts (the `none` case is Rust's one-part result). -/
def splitn2Chars (sep : Char) : List Char → Option (List Char × List Char)
  | [] => none
  | c :: cs =>
    if c = sep then some ([], cs)
    else (splitn2Chars sep cs).map (fun p => (c :: p.1, p.2))

/-- Splits at every occurrence of `sep`, keeping empty pieces; always returns
at least one piece.  Mirrors Rust `str::split(sep)`. -/
def splitAll (sep : Char) : List Char → List (List Char)
  | [] => [[]]
  | c :: cs =>
    if c = sep then [] :: splitAll sep cs
    else (splitAll sep cs).modifyHead (c :: ·)

/-- Drops a single trailing carriage return, as Rust `str::lines` does for a
`\r\n` line ending. -/
def stripCR1 (l : List Char) : List Char :=
  if l.getLast? = some '\r' then l.dropLast else l

/-- Processes the segments between newlines: every segment that was followed
by a `'\n'` loses one trailing `'\r'`; a final empty segment (trailing
newline) yields no line. -/
def rustLinesAux : List (List Char) → List (List Char)
  | [] => []
  | [last] => if last.isEmpty then [] else [last]
  | seg :: rest => stripCR1 seg :: rustLinesAux rest

/-- Mirrors Rust `str::lines`: split on `'\n'`, recognise `"\r\n"`, no final
empty line for a trailing newline. -/
def rustLines (s : String) : List String :=
  (rustLinesAux (splitAll '\n' s.data)).map String.mk

/-- Mirrors Rust `str::trim` (on the ASCII whitespace the inputs contain):
drop whitespace from the front, then from the back. -/
def rustTrim (s : String) : String :=
  String.mk (((s.data.dropWhile Char.isWhitespace).reverse.dropWhile
    Char.isWhitespace).reverse)

/-- Rust's maximum `usize` value on a 64-bit target. -/
def usizeMax : Nat := 18446744073709551615

deriving instance DecidableEq for Except

/-- Digit-by-digit accumulation for `from_str_radix` with radix 10, with the
overflow check against `max` after each digit, reporting the Rust
`ParseIntError` messages. -/
def parseUCore (max : Nat) : List Char → Nat → Except String Nat
  | [], acc => .ok acc
  | c :: cs, acc =>
    if c.isDigit then
      let acc' := acc * 10 + (c.toNat - 48)
      if acc' > max then .error "number too large to fit in target type"
      else parseUCore max cs acc'
    else .error "invalid digit found in string"

/-- Mirrors Rust `str::parse` for an unsigned integer type with maximum value
`max` (`u8`: 255, `usize`: `usizeMax`): optional `+` sign then decimal
digits; a `-` sign succeeds only on an all-zero digit string (unsigned
checked subtraction), which is why `"-0"` parses to `0`. -/
def rustParseU (max : Nat) (s : String) : Except String Nat :=
  match s.data with
  | [] => .error "cannot parse integer from empty string"
  | '+' :: rest =>
    if rest.isEmpty then .error "invalid digit found in string"
    else parseUCore max rest 0
  | '-' :: rest =>
    if !rest.isEmpty && rest.all (· = '0') then .ok 0
    else .error "invalid digit found in string"
  | l => parseUCore max l 0

/-! ## `src/svg/src/validation.rs` -/

/-- The error taxonomy of `validation.rs` (`enum ValidationError`). -/
inductive ValidationError
  | EmptyInput
  | InvalidLineFormat (line : Nat) (content : String)
  | InvalidYear (line : Nat) (year : String)
  | InvalidDayCount (year : Nat) (count : Nat)
  | InvalidStarValue (year : Nat)
  | ParseError (year : Nat) (error : String)
  deriving DecidableEq

/-- The `fmt::Display` implementation of `ValidationError`. -/
def ValidationError.display : ValidationError → String
  | .EmptyInput => "No valid data found in input"
  | .InvalidLineFormat l c => "Invalid line format on line " ++ toString l ++ ": " ++ c
  | .InvalidYear l y => "Invalid year on line " ++ toString l ++ ": " ++ y
  | .InvalidDayCount y c => "Year " ++ toString y ++ " has " ++ toString c ++ " days, expected 25"
  | .InvalidStarValue y => "Year " ++ toString y ++ " has invalid stars (must be 0, 1, or 2)"
  | .ParseError y e => "Error parsing year " ++ toString y ++ ": " ++ e

/-- Parses the comma-separated day values: each piece is trimmed and parsed
as `u8`, short-circuiting on the first parse error
(`parts[1].trim().split(',').map(|s| s.trim().parse::<u8>()).collect()`). -/
def parseDays : List String → Except String (List Nat)
  | [] => .ok []
  | p :: ps =>
    match rustParseU 255 (rustTrim p) with
    | .error e => .error e
    | .ok v => (parseDays ps).map (v :: ·)

/-- Validates one non-blank line (body of the loop in `validate_input`):
split on the first `':'`, parse the year as `usize`, parse the day list,
check the day count and the star values. `i` is the 0-based line index. -/
def parseLine (i : Nat) (line : String) : Except ValidationError (Nat × List Nat) :=
  match splitn2Chars ':' line.data with
  | none => .error (.InvalidLineFormat (i + 1) line)
  | some (p0, p1) =>
    match rustParseU usizeMax (rustTrim (String.mk p0)) with
    | .error _ => .error (.InvalidYear (i + 1) (String.mk p0))
    | .ok year =>
      match parseDays ((splitAll ',' (rustTrim (String.mk p1)).data).map String.mk) with
      | .error e => .error (.ParseError year e)
      | .ok days =>
        if days.length ≠ 25 then .error (.InvalidDayCount year days.length)
        else if days.any (fun d => d > 2) then .error (.InvalidStarValue year)
        else .ok (year, days)

/-- The loop of `validate_input` over the enumerated lines: blank lines are
skipped, entries are collected in order, the first error aborts. -/
def validateLines : Nat → List String → Except ValidationError (List (Nat × List Nat))
  | _, [] => .ok []
  | i, l :: ls =>
    if rustTrim l = "" then validateLines (i + 1) ls
    else
      match parseLine i l with
      | .error e => .error e
      | .ok entry => (validateLines (i + 1) ls).map (entry :: ·)

/-- `validate_input` from `validation.rs`: validate every line, then reject
an empty result with `EmptyInput`. -/
def validate_input (content : String) : Except ValidationError (List (Nat × List Nat)) :=
  match validateLines 0 (rustLines content) with
  | .error e => .error e
  | .ok years => if years.isEmpty then .error .EmptyInput else .ok years

/-! ## `src/svg/src/lib.rs` -/

def CELL_SIZE : Nat := 20
def FONT_SIZE : Nat := 12
def X_OFFSET : Nat := 40
def Y_OFFSET : Nat := 60
def YEAR_Y_OFFSET : Nat := 5
def PADDING : Nat := 20
def MATRIX_BORDER : Nat := 1

/-- The `Star` enum of `lib.rs`. -/
inductive Star
  | none
  | silver
  | gold
  deriving DecidableEq

/-- `impl From<u8> for Star`. -/
def Star.ofU8 (v : Nat) : Star :=
  if v = 1 then .silver else if v = 2 then .gold else .none

/-- The CSS block pushed by `SvgBuilder::add_header` (braces escaped). -/
def styleBlock : String :=
  "\n            <style>" ++
  "\n                @media (prefers-color-scheme: light) \x7b" ++
  "\n                    .text \x7b fill: #24292f; \x7d" ++
  "\n                    .grid-line \x7b stroke: #24292f; \x7d" ++
  "\n                    .matrix-border \x7b stroke: #24292f; \x7d" ++
  "\n                \x7d" ++
  "\n                @media (prefers-color-scheme: dark) \x7b" ++
  "\n                    .text \x7b fill: #c9d1d9; \x7d" ++
  "\n                    .grid-line \x7b stroke: #c9d1d9; \x7d" ++
  "\n                    .matrix-border \x7b stroke: #c9d1d9; \x7d" ++
  "\n                \x7d" ++
  "\n                .year-label \x7b font-family: Arial; font-size: 12px; \x7d" ++
  "\n                .day-label \x7b font-family: Arial; font-size: 12px; \x7d" ++
  "\n                .total-label \x7b font-family: Arial; font-size: 12px; font-weight: bold; \x7d" ++
  "\n                .grand-total \x7b font-family: Arial; font-size: 14px; font-weight: bold; \x7d" ++
  "\n                .star \x7b font-family: Arial; font-size: 12px; \x7d" ++
  "\n                .silver \x7b fill: #6b7280; \x7d" ++
  "\n                .gold \x7b fill: #fbbf24; \x7d" ++
  "\n                .matrix-border \x7b fill: none; stroke-width: 1; \x7d" ++
  "\n                .grid-line \x7b stroke-width: 0.5; stroke-opacity: 0.1; \x7d" ++
  "\n                .text \x7b font-family: Arial; \x7d" ++
  "\n            </style>"

/-- `SvgBuilder::add_header`: the `<svg>` opening tag, the style block and
the matrix border rectangle.  All coordinates are non-negative
(`X_OFFSET - MATRIX_BORDER = 39`, `Y_OFFSET - MATRIX_BORDER = 59`). -/
def add_header (width height matrix_width matrix_height : Nat) : String :=
  "<svg xmlns=\"http://www.w3.org/2000/svg\" width=\"" ++ toString width ++
    "\" height=\"" ++ toString height ++ "\" viewBox=\"0 0 " ++ toString width ++
    " " ++ toString height ++ "\">" ++
  styleBlock ++
  "<rect x=\"" ++ toString (X_OFFSET - MATRIX_BORDER) ++
    "\" y=\"" ++ toString (Y_OFFSET - MATRIX_BORDER) ++
    "\" width=\"" ++ toString (matrix_width + MATRIX_BORDER * 2) ++
    "\" height=\"" ++ toString (matrix_height + MATRIX_BORDER * 2) ++
    "\" class=\"matrix-border\"/>"

/-- One vertical grid line of `SvgBuilder::add_grid`. -/
def vLine (x matrix_height : Nat) : String :=
  "<line x1=\"" ++ toString x ++ "\" y1=\"" ++ toString Y_OFFSET ++
    "\" x2=\"" ++ toString x ++ "\" y2=\"" ++ toString (Y_OFFSET + matrix_height) ++
    "\" class=\"grid-line\"/>"

/-- One horizontal grid line of `SvgBuilder::add_grid`. -/
def hLine (y matrix_width : Nat) : String :=
  "<line x1=\"" ++ toString X_OFFSET ++ "\" y1=\"" ++ toString y ++
    "\" x2=\"" ++ toString (X_OFFSET + matrix_width) ++ "\" y2=\"" ++ toString y ++
    "\" class=\"grid-line\"/>"

/-- `SvgBuilder::add_grid`: vertical lines for `0..=(num_days+1)` and
horizontal lines for `0..=num_years`. -/
def add_grid (num_days num_years matrix_width matrix_height : Nat) : String :=
  String.join ((List.range (num_days + 2)).map fun i =>
    vLine (X_OFFSET + i * CELL_SIZE) matrix_height) ++
  String.join ((List.range (num_years + 1)).map fun i =>
    hLine (Y_OFFSET + i * CELL_SIZE) matrix_width)

/-- `SvgBuilder::add_year_labels` (`X_OFFSET - PADDING/2 = 30`). -/
def add_year_labels (years : List Nat) : String :=
  String.join (years.enum.map fun p =>
    "<text x=\"" ++ toString (X_OFFSET - PADDING / 2) ++
      "\" y=\"" ++ toString (Y_OFFSET + YEAR_Y_OFFSET + p.1 * CELL_SIZE + CELL_SIZE / 2) ++
      "\" class=\"year-label text\" text-anchor=\"end\">" ++ toString p.2 ++ "</text>")

/-- One label of `SvgBuilder::add_day_labels`; two-digit day numbers are
stacked as two `<text>` elements (`Y_OFFSET - PADDING - 2 = 38`,
`Y_OFFSET - PADDING/4 = 55`). -/
def dayLabel (day : Nat) : String :=
  if day + 1 < 10 then
    "<text x=\"" ++ toString (X_OFFSET + day * CELL_SIZE + CELL_SIZE / 2) ++
      "\" y=\"" ++ toString (Y_OFFSET - PADDING / 4) ++
      "\" class=\"day-label text\" text-anchor=\"middle\">" ++ toString (day + 1) ++ "</text>"
  else
    "<text x=\"" ++ toString (X_OFFSET + day * CELL_SIZE + CELL_SIZE / 2) ++
      "\" y=\"" ++ toString (Y_OFFSET - PADDING - 2) ++
      "\" class=\"day-label text\" text-anchor=\"middle\">" ++ toString ((day + 1) / 10) ++
      "</text>\n                    <text x=\"" ++
      toString (X_OFFSET + day * CELL_SIZE + CELL_SIZE / 2) ++
      "\" y=\"" ++ toString (Y_OFFSET - PADDING / 4) ++
      "\" class=\"day-label text\" text-anchor=\"middle\">" ++ toString ((day + 1) % 10) ++ "</text>"

/-- `SvgBuilder::add_day_labels`. -/
def add_day_labels (num_days : Nat) : String :=
  String.join ((List.range num_days).map dayLabel)

/-- One star `<text>` element of `SvgBuilder::add_stars`. -/
def dayStarText (x y : Nat) (star_class : String) : String :=
  "<text x=\"" ++ toString x ++ "\" y=\"" ++ toString y ++ "\" " ++
    "class=\"star " ++ star_class ++ "\"" ++ " text-anchor=\"middle\">★</text>"

/-- The inner day loop of `SvgBuilder::add_stars`: emits one star element per
day whose value maps to `Silver` or `Gold`, skipping `Star::None`.
`d` is the day index. -/
def rowStars (y_position : Nat) : Nat → List Nat → String
  | _, [] => ""
  | d, v :: vs =>
    (match Star.ofU8 v with
     | .none => ""
     | .silver =>
       dayStarText (X_OFFSET + d * CELL_SIZE + CELL_SIZE / 2)
         (y_position + CELL_SIZE / 2 + FONT_SIZE / 3) "silver"
     | .gold =>
       dayStarText (X_OFFSET + d * CELL_SIZE + CELL_SIZE / 2)
         (y_position + CELL_SIZE / 2 + FONT_SIZE / 3) "gold") ++
    rowStars y_position (d + 1) vs

/-- The contribution of one day value to `year_total`: values mapping to
`Star::None` (0 and anything above 2) are skipped by the loop. -/
def starPoints (v : Nat) : Nat :=
  match Star.ofU8 v with
  | .none => 0
  | _ => v

/-- `year_total` accumulated by the day loop of `SvgBuilder::add_stars`. -/
def yearTotal (days : List Nat) : Nat := (days.map starPoints).sum

/-- The per-year total `<text>` element of `SvgBuilder::add_stars`. -/
def totalLabelText (x y total : Nat) : String :=
  "<text x=\"" ++ toString x ++ "\" y=\"" ++ toString y ++
    "\" class=\"total-label text\" text-anchor=\"middle\">" ++ toString total ++ "</text>"

/-- One iteration of the outer year loop of `SvgBuilder::add_stars`: the
day stars followed by the year total label. -/
def yearRow (i : Nat) (days : List Nat) : String :=
  rowStars (Y_OFFSET + i * CELL_SIZE) 0 days ++
  totalLabelText (X_OFFSET + days.length * CELL_SIZE + CELL_SIZE / 2)
    (Y_OFFSET + i * CELL_SIZE + CELL_SIZE / 2 + FONT_SIZE / 3) (yearTotal days)

/-- The outer year loop of `SvgBuilder::add_stars`, `i` the enumeration
index. -/
def starsRows : Nat → List (Nat × List Nat) → String
  | _, [] => ""
  | i, p :: rest => yearRow i p.2 ++ starsRows (i + 1) rest

/-- `grand_total` accumulated by `SvgBuilder::add_stars`. -/
def grandTotal (years : List (Nat × List Nat)) : Nat :=
  (years.map fun p => yearTotal p.2).sum

/-- The grand total `<text>` element of `SvgBuilder::add_stars`. -/
def grandTotalText (matrix_width matrix_height total : Nat) : String :=
  "<text x=\"" ++ toString (X_OFFSET + matrix_width / 2) ++
    "\" y=\"" ++ toString (Y_OFFSET + matrix_height + PADDING * 2) ++
    "\" class=\"grand-total text\" text-anchor=\"middle\">" ++
    "Total stars: " ++ toString total ++ "</text>"

/-- `SvgBuilder::add_stars`: all year rows followed by the grand total. -/
def add_stars (matrix_width matrix_height : Nat) (years : List (Nat × List Nat)) : String :=
  starsRows 0 years ++ grandTotalText matrix_width matrix_height (grandTotal years)

/-- `generate_svg` from `lib.rs`: header, grid, year labels, day labels,
stars and the closing tag, with the layout derived from the first year's
day count. -/
def generate_svg (years : List (Nat × List Nat)) : String :=
  let num_years := years.length
  let num_days := match years.head? with | some p => p.2.length | Option.none => 0
  let matrix_width := (num_days + 1) * CELL_SIZE
  let matrix_height := num_years * CELL_SIZE
  let width := X_OFFSET + matrix_width + PADDING * 2
  let height := Y_OFFSET + matrix_height + PADDING * 4
  add_header width height matrix_width matrix_height ++
  add_grid num_days num_years matrix_width matrix_height ++
  add_year_labels (years.map Prod.fst) ++
  add_day_labels num_days ++
  add_stars matrix_width matrix_height years ++
  "</svg>"

/-! ## Substring containment infrastructure -/

/-- `n` occurs contiguously inside `h`. -/
def strInfix (n h : String) : Prop := n.data <:+: h.data

instance (n h : String) : Decidable (strInfix n h) := by
  unfold strInfix; infer_instance

theorem strInfix_app_left {n a : String} (h : strInfix n a) (b : String) :
    strInfix n (a ++ b) := by
  obtain ⟨s, t, e⟩ := h
  exact ⟨s, t ++ b.data, by rw [String.data_append, ← e]; simp⟩

theorem strInfix_app_right (a : String) {n b : String} (h : strInfix n b) :
    strInfix n (a ++ b) := by
  obtain ⟨s, t, e⟩ := h
  exact ⟨a.data ++ s, t, by rw [String.data_append, ← e]; simp⟩

/-! ## Structure of `generate_svg` output -/

theorem strInfix_grandTotalText (mw mh t : Nat) :
    strInfix ("Total stars: " ++ toString t) (grandTotalText mw mh t) := by
  refine ⟨("<text x=\"" ++ toString (X_OFFSET + mw / 2) ++ "\" y=\"" ++
    toString (Y_OFFSET + mh + PADDING * 2) ++
    "\" class=\"grand-total text\" text-anchor=\"middle\">").data, "</text>".data, ?_⟩
  simp [grandTotalText, String.data_append, List.append_assoc]

/-- The grand total line is part of every `generate_svg` output. -/
theorem generate_svg_total (years : List (Nat × List Nat)) :
    strInfix ("Total stars: " ++ toString (grandTotal years)) (generate_svg years) := by
  simp only [generate_svg, add_stars]
  apply strInfix_app_left
  apply strInfix_app_right
  apply strInfix_app_right
  exact strInfix_grandTotalText _ _ _

theorem strInfix_dayStar (x y : Nat) (cls : String) :
    strInfix ("class=\"star " ++ cls ++ "\"") (dayStarText x y cls) := by
  refine ⟨("<text x=\"" ++ toString x ++ "\" y=\"" ++ toString y ++ "\" ").data,
    (" text-anchor=\"middle\">★</text>").data, ?_⟩
  simp [dayStarText, String.data_append, List.append_assoc]

theorem dayStar_silver (x y : Nat) :
    strInfix "class=\"star silver\"" (dayStarText x y "silver") := by
  have h := strInfix_dayStar x y "silver"
  have e : ("class=\"star " ++ "silver" ++ "\"" : String) = "class=\"star silver\"" := by decide
  rwa [e] at h

theorem dayStar_gold (x y : Nat) :
    strInfix "class=\"star gold\"" (dayStarText x y "gold") := by
  have h := strInfix_dayStar x y "gold"
  have e : ("class=\"star " ++ "gold" ++ "\"" : String) = "class=\"star gold\"" := by decide
  rwa [e] at h

theorem rowStars_silver (y : Nat) (d : Nat) (days : List Nat) (h : 1 ∈ days) :
    strInfix "class=\"star silver\"" (rowStars y d days) := by
  induction days generalizing d with
  | nil => cases h
  | cons v vs ih =>
    rcases List.mem_cons.mp h with h1 | h1
    · subst h1
      simp only [rowStars, Star.ofU8, if_pos rfl]
      exact strInfix_app_left (dayStar_silver _ _) _
    · exact strInfix_app_right _ (ih (d + 1) h1)

theorem rowStars_gold (y : Nat) (d : Nat) (days : List Nat) (h : 2 ∈ days) :
    strInfix "class=\"star gold\"" (rowStars y d days) := by
  induction days generalizing d with
  | nil => cases h
  | cons v vs ih =>
    rcases List.mem_cons.mp h with h1 | h1
    · subst h1
      have e2 : Star.ofU8 2 = .gold := by decide
      simp only [rowStars, e2]
      exact strInfix_app_left (dayStar_gold _ _) _
    · exact strInfix_app_right _ (ih (d + 1) h1)

theorem starsRows_silver (i : Nat) (years : List (Nat × List Nat)) (y : Nat)
    (days : List Nat) (hm : (y, days) ∈ years) (h1 : 1 ∈ days) :
    strInfix "class=\"star silver\"" (starsRows i years) := by
  induction years generalizing i with
  | nil => cases hm
  | cons p ps ih =>
    rcases List.mem_cons.mp hm with h | h
    · subst h
      simp only [starsRows, yearRow]
      exact strInfix_app_left (strInfix_app_left (rowStars_silver _ 0 days h1) _) _
    · exact strInfix_app_right _ (ih (i + 1) h)

theorem starsRows_gold (i : Nat) (years : List (Nat × List Nat)) (y : Nat)
    (days : List Nat) (hm : (y, days) ∈ years) (h2 : 2 ∈ days) :
    strInfix "class=\"star gold\"" (starsRows i years) := by
  induction years generalizing i with
  | nil => cases hm
  | cons p ps ih =>
    rcases List.mem_cons.mp hm with h | h
    · subst h
      simp only [starsRows, yearRow]
      exact strInfix_app_left (strInfix_app_left (rowStars_gold _ 0 days h2) _) _
    · exact strInfix_app_right _ (ih (i + 1) h)

theorem generate_svg_silver (years : List (Nat × List Nat)) (y : Nat) (days : List Nat)
    (hm : (y, days) ∈ years) (h1 : 1 ∈ days) :
    strInfix "class=\"star silver\"" (generate_svg years) := by
  simp only [generate_svg, add_stars]
  apply strInfix_app_left
  apply strInfix_app_right
  exact strInfix_app_left (starsRows_silver 0 years y days hm h1) _

theorem generate_svg_gold (years : List (Nat × List Nat)) (y : Nat) (days : List Nat)
    (hm : (y, days) ∈ years) (h2 : 2 ∈ days) :
    strInfix "class=\"star gold\"" (generate_svg years) := by
  simp only [generate_svg, add_stars]
  apply strInfix_app_left
  apply strInfix_app_right
  exact strInfix_app_left (starsRows_gold 0 years y days hm h2) _

/-- A day value of at most 2 contributes exactly its value to the total. -/
theorem starPoints_of_le_two (v : Nat) (h : v ≤ 2) : starPoints v = v := by
  interval_cases v <;> rfl

theorem yearTotal_eq_sum (days : List Nat) (h : ∀ v ∈ days, v ≤ 2) :
    yearTotal days = days.sum := by
  unfold yearTotal
  rw [List.map_congr_left (fun v hv => starPoints_of_le_two v (h v hv))]
  simp

theorem grandTotal_eq_sum (years : List (Nat × List Nat))
    (h : ∀ p ∈ years, ∀ v ∈ p.2, v ≤ 2) :
    grandTotal years = (years.map fun p => p.2.sum).sum := by
  unfold grandTotal
  rw [List.map_congr_left (fun p hp => yearTotal_eq_sum p.2 (h p hp))]

/-! ## Behaviour of the validation loop -/

/-- Leading blank lines are skipped, advancing the line index. -/
theorem validateLines_blanks (bs : List String) (h : ∀ b ∈ bs, rustTrim b = "")
    (i : Nat) (ls : List String) :
    validateLines i (bs ++ ls) = validateLines (i + bs.length) ls := by
  induction bs generalizing i with
  | nil => simp
  | cons b bs' ih =>
    have hb : rustTrim b = "" := h b (by simp)
    have h' : ∀ x ∈ bs', rustTrim x = "" := fun x hx => h x (by simp [hx])
    have step : validateLines i ((b :: bs') ++ ls) = validateLines (i + 1) (bs' ++ ls) := by
      simp [validateLines, hb]
    have e : i + 1 + bs'.length = i + (b :: bs').length := by
      simp [List.length_cons]; omega
    rw [step, ih h' (i + 1), e]

/-- A failing non-blank line aborts the loop with its error. -/
theorem validateLines_error_head (i : Nat) (l : String) (ls : List String)
    (e : ValidationError) (hl : ¬ rustTrim l = "") (he : parseLine i l = .error e) :
    validateLines i (l :: ls) = .error e := by
  simp [validateLines, hl, he]

theorem validate_input_of_error (s : String) (e : ValidationError)
    (h : validateLines 0 (rustLines s) = .error e) : validate_input s = .error e := by
  simp [validate_input, h]

/-- If every line is blank the loop collects nothing. -/
theorem validateLines_all_blank (ls : List String) (h : ∀ l ∈ ls, rustTrim l = "")
    (i : Nat) : validateLines i ls = .ok [] := by
  induction ls generalizing i with
  | nil => rfl
  | cons l ls' ih =>
    have hl : rustTrim l = "" := h l (by simp)
    simp [validateLines, hl, ih (fun x hx => h x (by simp [hx])) (i + 1)]

/-! ## Claim theorems for the validation / rendering transform -/

/-- The input text of claim C5. -/
def c5Input : String := "2023: 2,2,2,2,2,2,2,2,2,2,2,2,2,2,2,2,2,2,2,1,0,0,0,0,0"

/-- The day values of claim C5's input: nineteen 2s, one 1 and five 0s. -/
def c5Days : List Nat := [2,2,2,2,2,2,2,2,2,2,2,2,2,2,2,2,2,2,2,1,0,0,0,0,0]

/-- Claim C5 counterexample: the validated day values of the claim's input
sum to 39 (nineteen 2s and one 1), not 38, and the rendered grand total is
accordingly 39 — the claim's asserted total of 38 ("the sum of the
day-values") is wrong. -/
theorem C5_counterexample :
    validate_input c5Input = .ok [(2023, c5Days)] ∧
    c5Days.sum = 39 ∧ grandTotal [(2023, c5Days)] = 39 := by
  refine ⟨by decide, by decide, by decide⟩

/-- Claim C5 (amended): the input validates to exactly one year entry with
25 day-values, and its rendering contains the literal text
`Total stars: 39` (the sum of the day-values, which is 39, not 38) as well
as both the silver-class and gold-class star markers. -/
theorem C5_round_trip :
    validate_input c5Input = .ok [(2023, c5Days)] ∧
    c5Days.length = 25 ∧
    strInfix "Total stars: 39" (generate_svg [(2023, c5Days)]) ∧
    strInfix "class=\"star silver\"" (generate_svg [(2023, c5Days)]) ∧
    strInfix "class=\"star gold\"" (generate_svg [(2023, c5Days)]) := by
  refine ⟨by decide, by decide, ?_, ?_, ?_⟩
  · have h := generate_svg_total [(2023, c5Days)]
    have e : ("Total stars: " ++ toString (grandTotal [(2023, c5Days)]) : String) =
        "Total stars: 39" := by decide
    rwa [e] at h
  · exact generate_svg_silver _ 2023 c5Days (by decide) (by decide)
  · exact generate_svg_gold _ 2023 c5Days (by decide) (by decide)

/-- Claim C9: for year entries whose day values are all at most 2, the SVG
output contains `Total stars: S` where `S` is the sum of all day values
across all years. -/
theorem C9_grand_total_is_sum (years : List (Nat × List Nat))
    (h : ∀ p ∈ years, ∀ v ∈ p.2, v ≤ 2) :
    strInfix ("Total stars: " ++ toString ((years.map fun p => p.2.sum).sum))
      (generate_svg years) := by
  have := generate_svg_total years
  rwa [grandTotal_eq_sum years h] at this

/-- Witness for C9 at a concrete input: the hypothesis holds for
`[(2023, [0, 1, 2])]` and the rendered output contains the total `3`. -/
theorem C9_witness :
    (∀ p ∈ [((2023 : Nat), [0, 1, 2])], ∀ v ∈ p.2, v ≤ 2) ∧
    strInfix ("Total stars: " ++
        toString (([((2023 : Nat), [0, 1, 2])].map fun p => p.2.sum).sum))
      (generate_svg [(2023, [0, 1, 2])]) :=
  ⟨by decide, C9_grand_total_is_sum [(2023, [0, 1, 2])] (by decide)⟩

/-- Claim C8: each structural violation produces the validation error
distinguishing its rule: a non-blank line without `':'` reports
`InvalidLineFormat` naming the line; an unparseable year part reports
`InvalidYear`; a parsed day list whose length is not 25 reports
`InvalidDayCount` with year and count; a day list of 25 values containing a
value above 2 reports `InvalidStarValue` with the year.  Each statement
allows leading blank lines and arbitrary following lines. -/
theorem C8_structural_failures :
    (∀ (s : String) (bs : List String) (l : String) (rest : List String),
      rustLines s = bs ++ l :: rest → (∀ b ∈ bs, rustTrim b = "") →
      ¬ rustTrim l = "" → splitn2Chars ':' l.data = none →
      validate_input s = .error (.InvalidLineFormat (bs.length + 1) l)) ∧
    (∀ (s : String) (bs : List String) (l : String) (rest : List String)
       (p0 p1 : List Char) (em : String),
      rustLines s = bs ++ l :: rest → (∀ b ∈ bs, rustTrim b = "") →
      ¬ rustTrim l = "" → splitn2Chars ':' l.data = some (p0, p1) →
      rustParseU usizeMax (rustTrim (String.mk p0)) = .error em →
      validate_input s = .error (.InvalidYear (bs.length + 1) (String.mk p0))) ∧
    (∀ (s : String) (bs : List String) (l : String) (rest : List String)
       (p0 p1 : List Char) (year : Nat) (days : List Nat),
      rustLines s = bs ++ l :: rest → (∀ b ∈ bs, rustTrim b = "") →
      ¬ rustTrim l = "" → splitn2Chars ':' l.data = some (p0, p1) →
      rustParseU usizeMax (rustTrim (String.mk p0)) = .ok year →
      parseDays ((splitAll ',' (rustTrim (String.mk p1)).data).map String.mk) = .ok days →
      days.length ≠ 25 →
      validate_input s = .error (.InvalidDayCount year days.length)) ∧
    (∀ (s : String) (bs : List String) (l : String) (rest : List String)
       (p0 p1 : List Char) (year : Nat) (days : List Nat) (v : Nat),
      rustLines s = bs ++ l :: rest → (∀ b ∈ bs, rustTrim b = "") →
      ¬ rustTrim l = "" → splitn2Chars ':' l.data = some (p0, p1) →
      rustParseU usizeMax (rustTrim (String.mk p0)) = .ok year →
      parseDays ((splitAll ',' (rustTrim (String.mk p1)).data).map String.mk) = .ok days →
      days.length = 25 → v ∈ days → v > 2 →
      validate_input s = .error (.InvalidStarValue year)) := by
  refine ⟨?_, ?_, ?_, ?_⟩
  · intro s bs l rest hs hb hl hcolon
    apply validate_input_of_error
    rw [hs, validateLines_blanks bs hb, Nat.zero_add]
    exact validateLines_error_head _ _ _ _ hl (by simp [parseLine, hcolon])
  · intro s bs l rest p0 p1 em hs hb hl hcolon hyear
    apply validate_input_of_error
    rw [hs, validateLines_blanks bs hb, Nat.zero_add]
    exact validateLines_error_head _ _ _ _ hl (by simp [parseLine, hcolon, hyear])
  · intro s bs l rest p0 p1 year days hs hb hl hcolon hyear hdays hlen
    apply validate_input_of_error
    rw [hs, validateLines_blanks bs hb, Nat.zero_add]
    exact validateLines_error_head _ _ _ _ hl
      (by simp [parseLine, hcolon, hyear, hdays, hlen])
  · intro s bs l rest p0 p1 year days v hs hb hl hcolon hyear hdays hlen hv hv2
    apply validate_input_of_error
    rw [hs, validateLines_blanks bs hb, Nat.zero_add]
    have hany : days.any (fun d => d > 2) = true :=
      List.any_eq_true.mpr ⟨v, hv, by simpa using hv2⟩
    exact validateLines_error_head _ _ _ _ hl
      (by simp [parseLine, hcolon, hyear, hdays, hlen, hany])

/-- Witness for C8 at concrete inputs, one per rule. -/
theorem C8_witness :
    validate_input "abc" = .error (.InvalidLineFormat 1 "abc") ∧
    validate_input "20x3: 1" = .error (.InvalidYear 1 "20x3") ∧
    validate_input "2023: 1,2" = .error (.InvalidDayCount 2023 2) ∧
    validate_input "2023: 3,2,2,2,2,2,2,2,2,2,2,2,2,2,2,2,2,2,2,1,0,0,0,0,0" =
      .error (.InvalidStarValue 2023) :=
  ⟨C8_structural_failures.1 "abc" [] "abc" [] (by decide) (by decide) (by decide)
      (by decide),
   C8_structural_failures.2.1 "20x3: 1" [] "20x3: 1" [] "20x3".data " 1".data
      "invalid digit found in string" (by decide) (by decide) (by decide) (by decide)
      (by decide),
   C8_structural_failures.2.2.1 "2023: 1,2" [] "2023: 1,2" [] "2023".data " 1,2".data
      2023 [1, 2] (by decide) (by decide) (by decide) (by decide) (by decide)
      (by decide) (by decide),
   C8_structural_failures.2.2.2 "2023: 3,2,2,2,2,2,2,2,2,2,2,2,2,2,2,2,2,2,2,1,0,0,0,0,0"
      [] "2023: 3,2,2,2,2,2,2,2,2,2,2,2,2,2,2,2,2,2,2,1,0,0,0,0,0" [] "2023".data
      " 3,2,2,2,2,2,2,2,2,2,2,2,2,2,2,2,2,2,2,1,0,0,0,0,0".data 2023
      [3,2,2,2,2,2,2,2,2,2,2,2,2,2,2,2,2,2,2,1,0,0,0,0,0] 3 (by decide) (by decide)
      (by decide) (by decide) (by decide) (by decide) (by decide) (by decide)
      (by decide)⟩

/-- Claim C10: an input whose lines are all blank (including the empty
string) fails with `EmptyInput`; a successful validation always returns a
non-empty list; a blank line is skipped without error, only advancing the
line index. -/
theorem C10_empty_input :
    (∀ s : String, (∀ l ∈ rustLines s, rustTrim l = "") →
      validate_input s = .error .EmptyInput) ∧
    (∀ (s : String) (ys : List (Nat × List Nat)), validate_input s = .ok ys → ys ≠ []) ∧
    (∀ (i : Nat) (l : String) (ls : List String), rustTrim l = "" →
      validateLines i (l :: ls) = validateLines (i + 1) ls) := by
  refine ⟨?_, ?_, ?_⟩
  · intro s h
    simp [validate_input, validateLines_all_blank (rustLines s) h 0]
  · intro s ys h
    unfold validate_input at h
    rcases he : validateLines 0 (rustLines s) with e | years
    · rw [he] at h; cases h
    · rw [he] at h
      rcases years with _ | ⟨y, ys'⟩
      · simp at h
      · simp at h
        rw [← h]
        simp
  · intro i l ls h
    simp [validateLines, h]

/-- Witness for C10: whitespace/empty inputs fail with `EmptyInput`, and a
blank first line is skipped. -/
theorem C10_witness :
    validate_input "  \n\n " = .error .EmptyInput ∧
    validateLines 0 ["", "x"] = validateLines 1 ["x"] :=
  ⟨C10_empty_input.1 "  \n\n " (by decide), C10_empty_input.2.2 0 "" ["x"] (by decide)⟩

/-! ## `src/api/src/main.rs`: supporting types -/

/-- Maximum file size fetched from GitHub (`MAX_FILE_SIZE`). -/
def MAX_FILE_SIZE : Nat := 1024

/-- The `AppError` enum of `main.rs`. -/
inductive AppError
  | RateLimitExceeded
  | GitHubFetchError (msg : String)
  | ValidationError (msg : String)
  | FileTooBig (size max : Nat)
  | NotFound (msg : String)
  deriving DecidableEq

/-- `impl From<&AppError> for StatusCode`. -/
def AppError.statusCode : AppError → Nat
  | .RateLimitExceeded => 429
  | .GitHubFetchError _ => 500
  | .ValidationError _ => 400
  | .FileTooBig _ _ => 413
  | .NotFound _ => 404

/-- The response body produced by `impl IntoResponse for AppError`. -/
def AppError.body : AppError → String
  | .RateLimitExceeded => "Rate limit exceeded"
  | .GitHubFetchError m => m
  | .ValidationError m => m
  | .FileTooBig s m =>
    "File size " ++ toString s ++ " bytes exceeds maximum allowed size of " ++
      toString m ++ " bytes"
  | .NotFound m => m

/-- `impl fmt::Display for AppError` (used via `e.to_string()` for the
cached error messages; note the prefixes differ from `AppError.body`). -/
def AppError.display : AppError → String
  | .RateLimitExceeded => "Rate limit exceeded"
  | .GitHubFetchError m => "GitHub fetch error: " ++ m
  | .ValidationError m => "Validation error: " ++ m
  | .FileTooBig s m =>
    "File size " ++ toString s ++ " bytes exceeds maximum allowed size of " ++
      toString m ++ " bytes"
  | .NotFound m => "Not found: " ++ m

/-- The `CachedError` struct of `main.rs`. -/
structure CachedError where
  status : Nat
  message : String
  deriving DecidableEq

/-- An HTTP response: status code, the headers the handler sets explicitly,
and the body. -/
structure Response where
  status : Nat
  headers : List (String × String)
  body : String
  deriving DecidableEq

/-- `add_response_headers`: attaches the `X-Request-ID` header. -/
def add_response_headers (r : Response) (request_id : String) : Response :=
  { r with headers := r.headers ++ [("X-Request-ID", request_id)] }

/-- `impl IntoResponse for AppError`: plain status and body, no explicit
headers. -/
def errResponse (e : AppError) : Response :=
  ⟨e.statusCode, [], e.body⟩

/-- `get_client_ip`: first comma-separated token of the forwarded-for
header, `"unknown"` when the header is absent. -/
def get_client_ip (xff : Option String) : String :=
  match xff with
  | some s => String.mk ((splitAll ',' s.data).headD [])
  | Option.none => "unknown"

/-- `create_cache_key`. -/
def create_cache_key (user repo branch file : String) : String :=
  user ++ "/" ++ repo ++ "/" ++ branch ++ "/" ++ file

/-! ## Association-list maps (`HashMap` / cache backing stores) -/

/-- Overwriting insert for a string-keyed association list. -/
def insertA {α : Type} (k : String) (v : α) (l : List (String × α)) :
    List (String × α) :=
  (k, v) :: l.filter (fun p => p.1 ≠ k)

theorem lookup_insertA_self {α : Type} (k : String) (v : α) (l : List (String × α)) :
    (insertA k v l).lookup k = some v := by
  simp [insertA, List.lookup]

/-! ## The moka caches

The two caches are instances of the external `moka` crate (not part of this
repository's sources).  `MokaCache` is modelled from the spec: `get` misses
once the time-to-live has elapsed since insertion or the time-to-idle has
elapsed since the last `get`; a hit refreshes the idle timer; `insert`
overwrites the value and all timers.  The capacity bound / LRU eviction is
not modelled (per the spec it affects only the memory bound, not
correctness). -/

structure MokaEntry (α : Type) where
  value : α
  inserted : Nat
  lastAccess : Nat
  deriving DecidableEq

structure MokaCache (α : Type) where
  ttl : Nat
  tti : Nat
  entries : List (String × MokaEntry α)
  deriving DecidableEq

/-- Modelled from the spec: cache lookup with expiry; a hit refreshes the
idle timer and returns the stored value, an entry past either timer is a
miss. -/
def MokaCache.get {α : Type} (c : MokaCache α) (k : String) (now : Nat) :
    Option α × MokaCache α :=
  match c.entries.lookup k with
  | Option.none => (Option.none, c)
  | some e =>
    if now - e.inserted < c.ttl ∧ now - e.lastAccess < c.tti then
      (some e.value, { c with entries := insertA k { e with lastAccess := now } c.entries })
    else (Option.none, c)

/-- Modelled from the spec: insert overwrites the value and all timers. -/
def MokaCache.insert {α : Type} (c : MokaCache α) (k : String) (v : α) (now : Nat) :
    MokaCache α :=
  { c with entries := insertA k ⟨v, now, now⟩ c.entries }

theorem MokaCache.get_miss {α : Type} (c : MokaCache α) (k : String) (now : Nat)
    (h : (c.get k now).1 = Option.none) : c.get k now = (Option.none, c) := by
  unfold MokaCache.get at h ⊢
  rcases hl : c.entries.lookup k with _ | e
  · rfl
  · rw [hl] at h
    dsimp only at h ⊢
    by_cases hc : now - e.inserted < c.ttl ∧ now - e.lastAccess < c.tti
    · rw [if_pos hc] at h; simp at h
    · rw [if_neg hc]

theorem MokaCache.get_insert_self {α : Type} (c : MokaCache α) (k : String) (v : α)
    (t now : Nat) (h1 : now - t < c.ttl) (h2 : now - t < c.tti) :
    (c.insert k v t).get k now =
      (some v, { c with entries := insertA k ⟨v, t, now⟩ (insertA k ⟨v, t, t⟩ c.entries) }) := by
  unfold MokaCache.insert MokaCache.get
  simp [lookup_insertA_self, h1, h2]

/-! ## The rate limiter (`check_rate_limit`, `RateLimiter`) -/

/-- The `RateLimiter` struct of `main.rs` (window size in abstract time
units). -/
structure RateLimiter where
  window_size : Nat
  max_requests : Nat
  deriving DecidableEq

/-- `RateLimiter::is_allowed`. -/
def RateLimiter.is_allowed (rl : RateLimiter) (count : Nat) : Bool :=
  count < rl.max_requests

/-- `check_rate_limit` of `main.rs`: fixed-window counting on the
`"{ip}:{cache_key}"` key.  `Instant::now()`/`elapsed()` are modelled by the
`now` parameter and `now - window_start` (the counter map only ever stores
past instants). -/
def check_rate_limit (rl : RateLimiter) (counts : List (String × Nat × Nat))
    (ip cache_key : String) (now : Nat) :
    Except AppError Unit × List (String × Nat × Nat) :=
  match counts.lookup (ip ++ ":" ++ cache_key) with
  | some wc =>
    if now - wc.1 > rl.window_size then
      (.ok (), insertA (ip ++ ":" ++ cache_key) (now, 1) counts)
    else if rl.is_allowed wc.2 then
      (.ok (), insertA (ip ++ ":" ++ cache_key) (wc.1, wc.2 + 1) counts)
    else (.error .RateLimitExceeded, counts)
  | Option.none => (.ok (), insertA (ip ++ ":" ++ cache_key) (now, 1) counts)

/-- A sequence of `check_rate_limit` calls for one subject, returning the
admission decisions in order and the final counter map. -/
def runLimiter (rl : RateLimiter) (ip cache_key : String) :
    List (String × Nat × Nat) → List Nat → List Bool × List (String × Nat × Nat)
  | counts, [] => ([], counts)
  | counts, t :: ts =>
    let step := check_rate_limit rl counts ip cache_key t
    let rest := runLimiter rl ip cache_key step.2 ts
    ((match step.1 with | .ok _ => true | .error _ => false) :: rest.1, rest.2)

/-! ## Fixed-window behaviour of the rate limiter -/

/-- Invariant of a run inside one window: after `k ≥ 1` admitted-or-denied
requests of a window that started at `t0`, the counter holds
`(t0, min k max_requests)`, and the remaining in-window requests are
admitted exactly while the count stays below `max_requests`. -/
theorem runLimiter_window (rl : RateLimiter) (ip key : String) (t0 : Nat) :
    ∀ (ts : List Nat) (counts : List (String × Nat × Nat)) (k : Nat),
      1 ≤ k →
      counts.lookup (ip ++ ":" ++ key) = some (t0, min k rl.max_requests) →
      (∀ t ∈ ts, t0 ≤ t ∧ t - t0 ≤ rl.window_size) →
      (runLimiter rl ip key counts ts).1 =
        (List.range ts.length).map (fun j => decide (k + j < rl.max_requests)) := by
  intro ts
  induction ts with
  | nil => intro counts k _ _ _; rfl
  | cons t ts' ih =>
    intro counts k hk hc hts
    obtain ⟨ht0, htw⟩ := hts t (by simp)
    have hts' : ∀ u ∈ ts', t0 ≤ u ∧ u - t0 ≤ rl.window_size :=
      fun u hu => hts u (by simp [hu])
    have hnw : ¬ t - t0 > rl.window_size := by omega
    simp only [runLimiter, check_rate_limit, hc]
    rw [if_neg hnw]
    by_cases hallow : k < rl.max_requests
    · have hmin : min k rl.max_requests = k := Nat.min_eq_left (Nat.le_of_lt hallow)
      have hbool : rl.is_allowed (t0, min k rl.max_requests).2 = true := by
        simp [RateLimiter.is_allowed, hmin, hallow]
      rw [if_pos hbool]
      have hmin' : min (k + 1) rl.max_requests = k + 1 := Nat.min_eq_left hallow
      have hstep := ih (insertA (ip ++ ":" ++ key) ((t0, min k rl.max_requests).1,
          (t0, min k rl.max_requests).2 + 1) counts) (k + 1) (by omega)
        (by rw [lookup_insertA_self]; simp [hmin, hmin']) hts'
      simp only [hstep, List.length_cons, List.range_succ_eq_map, List.map_cons,
        List.map_map]
      congr 1
      · simp [hallow]
      · apply List.map_congr_left
        intro j _
        simp only [Function.comp]
        have e : k + 1 + j = k + Nat.succ j := by omega
        rw [e]
    · have hmin : min k rl.max_requests = rl.max_requests :=
        Nat.min_eq_right (by omega)
      have hbool : rl.is_allowed (t0, min k rl.max_requests).2 = false := by
        simp [RateLimiter.is_allowed, hmin]
      rw [if_neg (by simp [hbool])]
      have hmin' : min (k + 1) rl.max_requests = rl.max_requests :=
        Nat.min_eq_right (by omega)
      have hstep := ih counts (k + 1) (by omega) (by rw [hc, hmin, hmin']) hts'
      simp only [hstep, List.length_cons, List.range_succ_eq_map, List.map_cons,
        List.map_map]
      congr 1
      · simp [hallow]
      · apply List.map_congr_left
        intro j _
        simp only [Function.comp]
        have e : k + 1 + j = k + Nat.succ j := by omega
        rw [e]

/-- Claim C1 (amended: the limit `N = max_requests` must be at least 1,
since the first request of a fresh or rolled-over window is admitted
unconditionally).  Part 1: starting from no counter, a sequence of requests
beginning at `t0` and staying within the window (`t - t0 ≤ W`) is admitted
exactly for the first `N` requests and denied from the `(N+1)`th on.
Part 2: a denial leaves the counter map unchanged.  Part 3: a request with
`now - windowStart > W` is admitted and resets the counter to `(now, 1)`,
carrying over no partial count. -/
theorem C1_fixed_window :
    (∀ (rl : RateLimiter) (counts : List (String × Nat × Nat)) (ip key : String)
       (t0 : Nat) (ts : List Nat),
      1 ≤ rl.max_requests →
      counts.lookup (ip ++ ":" ++ key) = Option.none →
      (∀ t ∈ ts, t0 ≤ t ∧ t - t0 ≤ rl.window_size) →
      (runLimiter rl ip key counts (t0 :: ts)).1 =
        (List.range (ts.length + 1)).map (fun j => decide (j < rl.max_requests))) ∧
    (∀ (rl : RateLimiter) (counts : List (String × Nat × Nat)) (ip key : String)
       (now ws c : Nat),
      counts.lookup (ip ++ ":" ++ key) = some (ws, c) →
      ¬ now - ws > rl.window_size → rl.max_requests ≤ c →
      check_rate_limit rl counts ip key now = (.error .RateLimitExceeded, counts)) ∧
    (∀ (rl : RateLimiter) (counts : List (String × Nat × Nat)) (ip key : String)
       (now ws c : Nat),
      counts.lookup (ip ++ ":" ++ key) = some (ws, c) →
      now - ws > rl.window_size →
      check_rate_limit rl counts ip key now =
        (.ok (), insertA (ip ++ ":" ++ key) (now, 1) counts)) := by
  refine ⟨?_, ?_, ?_⟩
  · intro rl counts ip key t0 ts hN h0 hts
    simp only [runLimiter, check_rate_limit, h0]
    have hmin : min 1 rl.max_requests = 1 := Nat.min_eq_left hN
    have hstep := runLimiter_window rl ip key t0 ts
      (insertA (ip ++ ":" ++ key) (t0, 1) counts) 1 (by omega)
      (by rw [lookup_insertA_self, hmin]) hts
    simp only [hstep, List.length_cons, List.range_succ_eq_map, List.map_cons,
      List.map_map]
    congr 1
    · simp
      omega
    · apply List.map_congr_left
      intro j _
      simp only [Function.comp]
      have e : 1 + j = Nat.succ j := by omega
      rw [e]
  · intro rl counts ip key now ws c hc hnw hge
    have hbool : rl.is_allowed (ws, c).2 = false := by
      simp [RateLimiter.is_allowed]; omega
    simp only [check_rate_limit, hc]
    rw [if_neg hnw, if_neg (by simp [hbool])]
  · intro rl counts ip key now ws c hc hw
    simp only [check_rate_limit, hc]
    rw [if_pos hw]

/-- Claim C1 counterexample for the statement as given (universally over the
limit `N`): with `max_requests = 0` the claim demands that no request be
admitted, but the very first request of a fresh window is admitted. -/
theorem C1_counterexample :
    (runLimiter ⟨60, 0⟩ "1.2.3.4" "k" [] [5]).1 = [true] := by decide

/-- Witness for C1 at a concrete input: window 10, limit 2, four in-window
requests — the first two are admitted, the rest denied. -/
theorem C1_witness :
    (runLimiter ⟨10, 2⟩ "1.2.3.4" "k" [] [0, 1, 2, 3]).1 =
      [true, true, false, false] := by
  have h := C1_fixed_window.1 ⟨10, 2⟩ [] "1.2.3.4" "k" 0 [1, 2, 3] (by decide)
    (by decide) (by decide)
  exact h.trans (by decide)

/-! ## The upstream collaborator and the orchestrator -/

/-- `GitHubFileMetadata` of `main.rs`. -/
structure GitHubFileMetadata where
  size : Nat
  download_url : String
  deriving DecidableEq

/-- Outcome of one upstream HTTP call, decided by the external host:
success, a 404, or a transport/parse failure with its message. -/
inductive FetchOutcome (α : Type)
  | ok (val : α)
  | notFound
  | transportFail (msg : String)
  deriving DecidableEq

/-- The upstream collaborator for one request: the outcome of the metadata
call and of the content call. -/
structure Upstream where
  metadataResult : FetchOutcome GitHubFileMetadata
  contentResult : FetchOutcome String
  deriving DecidableEq

/-- A record of the outbound calls a request performed, in order. -/
inductive UpstreamCall
  | metadataCall (url : String)
  | contentCall (url : String)
  deriving DecidableEq

/-- The metadata URL built by `fetch_github_metadata`. -/
def api_url (user repo branch txt_file : String) : String :=
  "https://api.github.com/repos/" ++ user ++ "/" ++ repo ++ "/contents/" ++
    txt_file ++ "?ref=" ++ branch

/-- `fetch_github_metadata`: a 404 becomes `NotFound` with the request URL
in the message; transport and parse failures become `GitHubFetchError`. -/
def fetch_github_metadata (o : FetchOutcome GitHubFileMetadata) (url : String) :
    Except AppError GitHubFileMetadata :=
  match o with
  | .ok m => .ok m
  | .notFound => .error (.NotFound ("File not found: " ++ url))
  | .transportFail msg => .error (.GitHubFetchError msg)

/-- `fetch_file_content`, with the same error mapping as the metadata
fetch. -/
def fetch_file_content (o : FetchOutcome String) (url : String) :
    Except AppError String :=
  match o with
  | .ok c => .ok c
  | .notFound => .error (.NotFound ("File not found: " ++ url))
  | .transportFail msg => .error (.GitHubFetchError msg)

/-- The shared state of `main.rs` (`AppState`): the artifact cache, the
negative cache, the rate limiter configuration and the counter map.  The
HTTP client and token are not modelled (the upstream is the
`Upstream` oracle). -/
structure AppState where
  cache : MokaCache String
  error_cache : MokaCache CachedError
  rate_limiter : RateLimiter
  request_counts : List (String × Nat × Nat)
  deriving DecidableEq

/-- The `.txt` filename derived from the request path
(`file.strip_suffix(".svg")` then `format!("{}.txt", …)`). -/
def txtFile (file : String) : String :=
  if file.endsWith ".svg" then file.dropRight 4 ++ ".txt" else file ++ ".txt"

/-- `handle_stars` of `main.rs`, the request orchestrator: success-cache
lookup, negative-cache lookup, rate limit, metadata fetch, size guard,
content fetch, validation, render, publish.  `render` stands for the
3-argument `generate_svg(years, primary, secondary)` the handler calls (the
render transform is a pure collaborator); `request_id` is the generated
UUID; `now` the request's time; the returned list records the upstream
calls made. -/
def handle_stars (render : List (Nat × List Nat) → Option String → Option String → String)
    (up : Upstream) (user repo branch file : String)
    (primary secondary : Option String) (xff : Option String)
    (request_id : String) (now : Nat) (st : AppState) :
    Response × AppState × List UpstreamCall :=
  match st.cache.get (create_cache_key user repo branch file) now with
  | (some svg_content, cache') =>
    (add_response_headers
      ⟨200, [("Content-Type", "image/svg+xml"), ("Cache-Control", "no-cache"),
             ("X-Cache", "HIT")], svg_content⟩ request_id,
     { st with cache := cache' }, [])
  | (Option.none, cache₁) =>
    match st.error_cache.get (create_cache_key user repo branch file) now with
    | (some cached_error, ec') =>
      (⟨cached_error.status, [], cached_error.message⟩,
       { st with cache := cache₁, error_cache := ec' }, [])
    | (Option.none, ec₁) =>
      match check_rate_limit st.rate_limiter st.request_counts (get_client_ip xff)
          (create_cache_key user repo branch file) now with
      | (.error e, counts') =>
        (errResponse e,
         { st with cache := cache₁, error_cache := ec₁, request_counts := counts' }, [])
      | (.ok _, counts') =>
        match fetch_github_metadata up.metadataResult
            (api_url user repo branch (txtFile file)) with
        | .error e =>
          (errResponse e,
           { st with
             cache := cache₁
             error_cache := ec₁.insert (create_cache_key user repo branch file)
               ⟨e.statusCode, e.display⟩ now
             request_counts := counts' },
           [.metadataCall (api_url user repo branch (txtFile file))])
        | .ok metadata =>
          if metadata.size > MAX_FILE_SIZE then
            (errResponse (.FileTooBig metadata.size MAX_FILE_SIZE),
             { st with
               cache := cache₁
               error_cache := ec₁.insert (create_cache_key user repo branch file)
                 ⟨413, (AppError.FileTooBig metadata.size MAX_FILE_SIZE).display⟩ now
               request_counts := counts' },
             [.metadataCall (api_url user repo branch (txtFile file))])
          else
            match fetch_file_content up.contentResult metadata.download_url with
            | .error e =>
              (errResponse e,
               { st with
                 cache := cache₁
                 error_cache := ec₁.insert (create_cache_key user repo branch file)
                   ⟨e.statusCode, e.display⟩ now
                 request_counts := counts' },
               [.metadataCall (api_url user repo branch (txtFile file)),
                .contentCall metadata.download_url])
            | .ok content =>
              match validate_input content with
              | .error ve =>
                (errResponse (.ValidationError ve.display),
                 { st with
                   cache := cache₁
                   error_cache := ec₁.insert (create_cache_key user repo branch file)
                     ⟨400, ve.display⟩ now
                   request_counts := counts' },
                 [.metadataCall (api_url user repo branch (txtFile file)),
                  .contentCall metadata.download_url])
              | .ok validated_data =>
                (add_response_headers
                  ⟨200, [("Content-Type", "image/svg+xml"),
                         ("Cache-Control", "no-cache"), ("X-Cache", "MISS")],
                   render validated_data primary secondary⟩ request_id,
                 { st with
                   cache := cache₁.insert (create_cache_key user repo branch file)
                     (render validated_data primary secondary) now
                   error_cache := ec₁
                   request_counts := counts' },
                 [.metadataCall (api_url user repo branch (txtFile file)),
                  .contentCall metadata.download_url])

/-! ## Path equations of the orchestrator -/

/-- A denied `check_rate_limit` always denies with `RateLimitExceeded` and
leaves the counter map unchanged. -/
theorem check_rate_limit_deny (rl : RateLimiter) (counts : List (String × Nat × Nat))
    (ip cache_key : String) (now : Nat) (e : AppError)
    (h : (check_rate_limit rl counts ip cache_key now).1 = .error e) :
    check_rate_limit rl counts ip cache_key now = (.error .RateLimitExceeded, counts) := by
  unfold check_rate_limit at h ⊢
  rcases hl : counts.lookup (ip ++ ":" ++ cache_key) with _ | wc
  · rw [hl] at h
    dsimp only at h
    simp at h
  · rw [hl] at h
    dsimp only at h ⊢
    by_cases hw : now - wc.1 > rl.window_size
    · rw [if_pos hw] at h; simp at h
    · rw [if_neg hw] at h ⊢
      by_cases ha : rl.is_allowed wc.2
      · rw [if_pos ha] at h; simp at h
      · rw [if_neg ha]

/-- An admitting `check_rate_limit` equals `(ok, updated counts)`. -/
theorem check_rate_limit_ok (rl : RateLimiter) (counts : List (String × Nat × Nat))
    (ip cache_key : String) (now : Nat)
    (h : (check_rate_limit rl counts ip cache_key now).1 = .ok ()) :
    check_rate_limit rl counts ip cache_key now =
      (.ok (), (check_rate_limit rl counts ip cache_key now).2) := by
  rw [← h]

/-- Success-cache hit:`handle_stars` responds 200 with the cached artifact,
an `X-Cache: HIT` header and the request id, performs no upstream call, and
only the artifact cache's idle timer changes. -/
theorem handle_stars_cache_hit (render : List (Nat × List Nat) → Option String → Option String → String)
    (up : Upstream) (user repo branch file : String)
    (primary secondary xff : Option String) (request_id : String) (now : Nat)
    (st : AppState) (v : String) (c' : MokaCache String)
    (h : st.cache.get (create_cache_key user repo branch file) now = (some v, c')) :
    handle_stars render up user repo branch file primary secondary xff request_id now st =
      (add_response_headers
        ⟨200, [("Content-Type", "image/svg+xml"), ("Cache-Control", "no-cache"),
               ("X-Cache", "HIT")], v⟩ request_id,
       { st with cache := c' }, []) := by
  simp only [handle_stars, h]

/-- Negative-cache hit: `handle_stars` responds with exactly the cached
status and message (and no explicit headers), performs no upstream call,
and leaves the artifact cache and the counter map untouched. -/
theorem handle_stars_error_hit (render : List (Nat × List Nat) → Option String → Option String → String)
    (up : Upstream) (user repo branch file : String)
    (primary secondary xff : Option String) (request_id : String) (now : Nat)
    (st : AppState) (ce : CachedError) (ec' : MokaCache CachedError)
    (h1 : (st.cache.get (create_cache_key user repo branch file) now).1 = Option.none)
    (h2 : st.error_cache.get (create_cache_key user repo branch file) now = (some ce, ec')) :
    handle_stars render up user repo branch file primary secondary xff request_id now st =
      (⟨ce.status, [], ce.message⟩, { st with error_cache := ec' }, []) := by
  simp only [handle_stars, MokaCache.get_miss _ _ _ h1, h2]

/-- Quota denial: `handle_stars` responds 429 and changes nothing at all. -/
theorem handle_stars_deny (render : List (Nat × List Nat) → Option String → Option String → String)
    (up : Upstream) (user repo branch file : String)
    (primary secondary xff : Option String) (request_id : String) (now : Nat)
    (st : AppState) (e : AppError)
    (h1 : (st.cache.get (create_cache_key user repo branch file) now).1 = Option.none)
    (h2 : (st.error_cache.get (create_cache_key user repo branch file) now).1 = Option.none)
    (h3 : (check_rate_limit st.rate_limiter st.request_counts (get_client_ip xff)
            (create_cache_key user repo branch file) now).1 = .error e) :
    handle_stars render up user repo branch file primary secondary xff request_id now st =
      (⟨429, [], "Rate limit exceeded"⟩, st, []) := by
  simp only [handle_stars, MokaCache.get_miss _ _ _ h1, MokaCache.get_miss _ _ _ h2,
    check_rate_limit_deny _ _ _ _ _ _ h3]
  rfl

/-- Oversize metadata: `handle_stars` responds 413 with the size message,
inserts the too-large entry into the negative cache, and never performs the
content call. -/
theorem handle_stars_toobig (render : List (Nat × List Nat) → Option String → Option String → String)
    (up : Upstream) (user repo branch file : String)
    (primary secondary xff : Option String) (request_id : String) (now : Nat)
    (st : AppState) (md : GitHubFileMetadata)
    (h1 : (st.cache.get (create_cache_key user repo branch file) now).1 = Option.none)
    (h2 : (st.error_cache.get (create_cache_key user repo branch file) now).1 = Option.none)
    (h3 : (check_rate_limit st.rate_limiter st.request_counts (get_client_ip xff)
            (create_cache_key user repo branch file) now).1 = .ok ())
    (h4 : up.metadataResult = .ok md)
    (h5 : md.size > MAX_FILE_SIZE) :
    handle_stars render up user repo branch file primary secondary xff request_id now st =
      (⟨413, [], "File size " ++ toString md.size ++
         " bytes exceeds maximum allowed size of " ++ toString MAX_FILE_SIZE ++ " bytes"⟩,
       { st with
         error_cache := st.error_cache.insert (create_cache_key user repo branch file)
           ⟨413, "File size " ++ toString md.size ++
             " bytes exceeds maximum allowed size of " ++ toString MAX_FILE_SIZE ++ " bytes"⟩ now
         request_counts := (check_rate_limit st.rate_limiter st.request_counts
           (get_client_ip xff) (create_cache_key user repo branch file) now).2 },
       [.metadataCall (api_url user repo branch (txtFile file))]) := by
  have hrl := check_rate_limit_ok _ _ _ _ _ h3
  simp only [handle_stars, MokaCache.get_miss _ _ _ h1, MokaCache.get_miss _ _ _ h2]
  rw [hrl]
  simp only [h4, fetch_github_metadata, if_pos h5]
  rfl

/-- Full pipeline success: `handle_stars` renders, responds 200 with
`X-Cache: MISS` and the request id, and publishes the artifact into the
cache under the composite key. -/
theorem handle_stars_publish (render : List (Nat × List Nat) → Option String → Option String → String)
    (up : Upstream) (user repo branch file : String)
    (primary secondary xff : Option String) (request_id : String) (now : Nat)
    (st : AppState) (md : GitHubFileMetadata) (content : String)
    (validated_data : List (Nat × List Nat))
    (h1 : (st.cache.get (create_cache_key user repo branch file) now).1 = Option.none)
    (h2 : (st.error_cache.get (create_cache_key user repo branch file) now).1 = Option.none)
    (h3 : (check_rate_limit st.rate_limiter st.request_counts (get_client_ip xff)
            (create_cache_key user repo branch file) now).1 = .ok ())
    (h4 : up.metadataResult = .ok md)
    (h5 : ¬ md.size > MAX_FILE_SIZE)
    (h6 : up.contentResult = .ok content)
    (h7 : validate_input content = .ok validated_data) :
    handle_stars render up user repo branch file primary secondary xff request_id now st =
      (add_response_headers
        ⟨200, [("Content-Type", "image/svg+xml"), ("Cache-Control", "no-cache"),
               ("X-Cache", "MISS")], render validated_data primary secondary⟩ request_id,
       { st with
         cache := st.cache.insert (create_cache_key user repo branch file)
           (render validated_data primary secondary) now
         request_counts := (check_rate_limit st.rate_limiter st.request_counts
           (get_client_ip xff) (create_cache_key user repo branch file) now).2 },
       [.metadataCall (api_url user repo branch (txtFile file)),
        .contentCall md.download_url]) := by
  have hrl := check_rate_limit_ok _ _ _ _ _ h3
  simp only [handle_stars, MokaCache.get_miss _ _ _ h1, MokaCache.get_miss _ _ _ h2]
  rw [hrl]
  simp only [h4, fetch_github_metadata, if_neg h5, h6, fetch_file_content, h7]

/-! ## Claim theorems for the orchestrator -/

/-- Claim C2: a request denied by the quota tracker is answered 429 with
the rate-limit body, the entire application state — artifact cache,
negative cache and counter map — is unchanged (in particular neither cache
gains or refreshes an entry), and no upstream call is made. -/
theorem C2_deny_writes_nothing
    (render : List (Nat × List Nat) → Option String → Option String → String)
    (up : Upstream) (user repo branch file : String)
    (primary secondary xff : Option String) (request_id : String) (now : Nat)
    (st : AppState) (e : AppError)
    (h1 : (st.cache.get (create_cache_key user repo branch file) now).1 = Option.none)
    (h2 : (st.error_cache.get (create_cache_key user repo branch file) now).1 = Option.none)
    (h3 : (check_rate_limit st.rate_limiter st.request_counts (get_client_ip xff)
            (create_cache_key user repo branch file) now).1 = .error e) :
    (handle_stars render up user repo branch file primary secondary xff request_id now st).1.status = 429 ∧
    (handle_stars render up user repo branch file primary secondary xff request_id now st).1.body =
      "Rate limit exceeded" ∧
    (handle_stars render up user repo branch file primary secondary xff request_id now st).2.1 = st ∧
    (handle_stars render up user repo branch file primary secondary xff request_id now st).2.2 = [] := by
  rw [handle_stars_deny render up user repo branch file primary secondary xff
    request_id now st e h1 h2 h3]
  exact ⟨rfl, rfl, rfl, rfl⟩

/-- Witness for C2: a subject at its limit inside the window is denied and
the state is untouched. -/
theorem C2_witness :
    (handle_stars (fun _ _ _ => "") ⟨.notFound, .notFound⟩ "u" "r" "b" "f.svg"
      Option.none Option.none Option.none "rid" 5
      ⟨⟨300, 600, []⟩, ⟨60, 120, []⟩, ⟨60, 2⟩, [("unknown:u/r/b/f.svg", (0, 2))]⟩).1.status = 429 ∧
    (handle_stars (fun _ _ _ => "") ⟨.notFound, .notFound⟩ "u" "r" "b" "f.svg"
      Option.none Option.none Option.none "rid" 5
      ⟨⟨300, 600, []⟩, ⟨60, 120, []⟩, ⟨60, 2⟩, [("unknown:u/r/b/f.svg", (0, 2))]⟩).2.1 =
      ⟨⟨300, 600, []⟩, ⟨60, 120, []⟩, ⟨60, 2⟩, [("unknown:u/r/b/f.svg", (0, 2))]⟩ := by
  have h := C2_deny_writes_nothing (fun _ _ _ => "") ⟨.notFound, .notFound⟩ "u" "r" "b"
    "f.svg" Option.none Option.none Option.none "rid" 5
    ⟨⟨300, 600, []⟩, ⟨60, 120, []⟩, ⟨60, 2⟩, [("unknown:u/r/b/f.svg", (0, 2))]⟩
    .RateLimitExceeded (by decide) (by decide) (by decide)
  exact ⟨h.1, h.2.2.1⟩

/-- Claim C3: when the resource key has a live negative-cache entry (and
the artifact cache misses, per the pipeline order), the response is exactly
the cached status and message, no upstream call is made, and neither the
artifact cache nor the quota counter map is touched. -/
theorem C3_negative_hit_short_circuits
    (render : List (Nat × List Nat) → Option String → Option String → String)
    (up : Upstream) (user repo branch file : String)
    (primary secondary xff : Option String) (request_id : String) (now : Nat)
    (st : AppState) (ce : CachedError) (ec' : MokaCache CachedError)
    (h1 : (st.cache.get (create_cache_key user repo branch file) now).1 = Option.none)
    (h2 : st.error_cache.get (create_cache_key user repo branch file) now = (some ce, ec')) :
    (handle_stars render up user repo branch file primary secondary xff request_id now st).1 =
      ⟨ce.status, [], ce.message⟩ ∧
    (handle_stars render up user repo branch file primary secondary xff request_id now st).2.1.cache =
      st.cache ∧
    (handle_stars render up user repo branch file primary secondary xff request_id now st).2.1.request_counts =
      st.request_counts ∧
    (handle_stars render up user repo branch file primary secondary xff request_id now st).2.2 = [] := by
  rw [handle_stars_error_hit render up user repo branch file primary secondary xff
    request_id now st ce ec' h1 h2]
  exact ⟨rfl, rfl, rfl, rfl⟩

/-- Witness for C3: a cached 404 is served verbatim without consuming
quota. -/
theorem C3_witness :
    (handle_stars (fun _ _ _ => "") ⟨.notFound, .notFound⟩ "u" "r" "b" "f.svg"
      Option.none Option.none Option.none "rid" 5
      ⟨⟨300, 600, []⟩, ⟨60, 120, [("u/r/b/f.svg", ⟨⟨404, "cached message"⟩, 0, 0⟩)]⟩,
       ⟨60, 30⟩, []⟩).1 = ⟨404, [], "cached message"⟩ ∧
    (handle_stars (fun _ _ _ => "") ⟨.notFound, .notFound⟩ "u" "r" "b" "f.svg"
      Option.none Option.none Option.none "rid" 5
      ⟨⟨300, 600, []⟩, ⟨60, 120, [("u/r/b/f.svg", ⟨⟨404, "cached message"⟩, 0, 0⟩)]⟩,
       ⟨60, 30⟩, []⟩).2.1.request_counts = [] := by
  have h := C3_negative_hit_short_circuits (fun _ _ _ => "") ⟨.notFound, .notFound⟩
    "u" "r" "b" "f.svg" Option.none Option.none Option.none "rid" 5
    ⟨⟨300, 600, []⟩, ⟨60, 120, [("u/r/b/f.svg", ⟨⟨404, "cached message"⟩, 0, 0⟩)]⟩,
     ⟨60, 30⟩, []⟩ ⟨404, "cached message"⟩
    ⟨60, 120, [("u/r/b/f.svg", ⟨⟨404, "cached message"⟩, 0, 5⟩)]⟩ (by decide) (by decide)
  exact ⟨h.1, h.2.2.1⟩

/-- Claim C4: when the metadata fetch reports a size above the fixed
maximum (1024 bytes), the response is 413 with a body stating the observed
size and the maximum, a too-large entry is inserted into the negative
cache, and the content download is never attempted (the upstream call log
contains only the metadata call). -/
theorem C4_size_guard
    (render : List (Nat × List Nat) → Option String → Option String → String)
    (up : Upstream) (user repo branch file : String)
    (primary secondary xff : Option String) (request_id : String) (now : Nat)
    (st : AppState) (md : GitHubFileMetadata)
    (h1 : (st.cache.get (create_cache_key user repo branch file) now).1 = Option.none)
    (h2 : (st.error_cache.get (create_cache_key user repo branch file) now).1 = Option.none)
    (h3 : (check_rate_limit st.rate_limiter st.request_counts (get_client_ip xff)
            (create_cache_key user repo branch file) now).1 = .ok ())
    (h4 : up.metadataResult = .ok md)
    (h5 : md.size > MAX_FILE_SIZE) :
    MAX_FILE_SIZE = 1024 ∧
    (handle_stars render up user repo branch file primary secondary xff request_id now st).1.status = 413 ∧
    (handle_stars render up user repo branch file primary secondary xff request_id now st).1.body =
      "File size " ++ toString md.size ++ " bytes exceeds maximum allowed size of " ++
        toString MAX_FILE_SIZE ++ " bytes" ∧
    (handle_stars render up user repo branch file primary secondary xff request_id now st).2.1.error_cache =
      st.error_cache.insert (create_cache_key user repo branch file)
        ⟨413, "File size " ++ toString md.size ++ " bytes exceeds maximum allowed size of " ++
          toString MAX_FILE_SIZE ++ " bytes"⟩ now ∧
    (handle_stars render up user repo branch file primary secondary xff request_id now st).2.2 =
      [.metadataCall (api_url user repo branch (txtFile file))] ∧
    (handle_stars render up user repo branch file primary secondary xff request_id now st).2.1.cache =
      st.cache := by
  rw [handle_stars_toobig render up user repo branch file primary secondary xff
    request_id now st md h1 h2 h3 h4 h5]
  exact ⟨rfl, rfl, rfl, rfl, rfl, rfl⟩

/-- Witness for C4: a 2048-byte metadata answer yields 413 and no content
call. -/
theorem C4_witness :
    (handle_stars (fun _ _ _ => "") ⟨.ok ⟨2048, "http://dl"⟩, .ok "x"⟩ "u" "r" "b" "f.svg"
      Option.none Option.none Option.none "rid" 5
      ⟨⟨300, 600, []⟩, ⟨60, 120, []⟩, ⟨60, 30⟩, []⟩).1.status = 413 ∧
    (handle_stars (fun _ _ _ => "") ⟨.ok ⟨2048, "http://dl"⟩, .ok "x"⟩ "u" "r" "b" "f.svg"
      Option.none Option.none Option.none "rid" 5
      ⟨⟨300, 600, []⟩, ⟨60, 120, []⟩, ⟨60, 30⟩, []⟩).2.2 =
      [.metadataCall (api_url "u" "r" "b" (txtFile "f.svg"))] := by
  have h := C4_size_guard (fun _ _ _ => "") ⟨.ok ⟨2048, "http://dl"⟩, .ok "x"⟩ "u" "r"
    "b" "f.svg" Option.none Option.none Option.none "rid" 5
    ⟨⟨300, 600, []⟩, ⟨60, 120, []⟩, ⟨60, 30⟩, []⟩ ⟨2048, "http://dl"⟩
    (by decide) (by decide) (by decide) (by decide) (by decide)
  exact ⟨h.2.1, h.2.2.2.2.1⟩

/-- Claim C7: once a request completes a successful render and publishes
it, a second request for the same composite key within the cache TTL (and
idle time) answers 200 with byte-identical artifact text and an
`X-Cache: HIT` header, performing no upstream call — whatever render
function, upstream oracle, colors, client or request id the second request
has. -/
theorem C7_published_artifact_idempotent
    (render : List (Nat × List Nat) → Option String → Option String → String)
    (up : Upstream) (user repo branch file : String)
    (primary secondary xff : Option String) (rid1 : String) (t1 : Nat)
    (st : AppState) (md : GitHubFileMetadata) (content : String)
    (validated_data : List (Nat × List Nat))
    (h1 : (st.cache.get (create_cache_key user repo branch file) t1).1 = Option.none)
    (h2 : (st.error_cache.get (create_cache_key user repo branch file) t1).1 = Option.none)
    (h3 : (check_rate_limit st.rate_limiter st.request_counts (get_client_ip xff)
            (create_cache_key user repo branch file) t1).1 = .ok ())
    (h4 : up.metadataResult = .ok md)
    (h5 : ¬ md.size > MAX_FILE_SIZE)
    (h6 : up.contentResult = .ok content)
    (h7 : validate_input content = .ok validated_data)
    (render2 : List (Nat × List Nat) → Option String → Option String → String)
    (up2 : Upstream) (primary2 secondary2 xff2 : Option String) (rid2 : String)
    (t2 : Nat)
    (h8 : t2 - t1 < st.cache.ttl) (h9 : t2 - t1 < st.cache.tti) :
    (handle_stars render up user repo branch file primary secondary xff rid1 t1 st).1.status = 200 ∧
    ("X-Cache", "MISS") ∈
      (handle_stars render up user repo branch file primary secondary xff rid1 t1 st).1.headers ∧
    (handle_stars render2 up2 user repo branch file primary2 secondary2 xff2 rid2 t2
      (handle_stars render up user repo branch file primary secondary xff rid1 t1 st).2.1).1.status = 200 ∧
    (handle_stars render2 up2 user repo branch file primary2 secondary2 xff2 rid2 t2
      (handle_stars render up user repo branch file primary secondary xff rid1 t1 st).2.1).1.body =
      (handle_stars render up user repo branch file primary secondary xff rid1 t1 st).1.body ∧
    ("X-Cache", "HIT") ∈
      (handle_stars render2 up2 user repo branch file primary2 secondary2 xff2 rid2 t2
        (handle_stars render up user repo branch file primary secondary xff rid1 t1 st).2.1).1.headers ∧
    (handle_stars render2 up2 user repo branch file primary2 secondary2 xff2 rid2 t2
      (handle_stars render up user repo branch file primary secondary xff rid1 t1 st).2.1).2.2 = [] := by
  have hR1 := handle_stars_publish render up user repo branch file primary secondary
    xff rid1 t1 st md content validated_data h1 h2 h3 h4 h5 h6 h7
  have hget := MokaCache.get_insert_self st.cache (create_cache_key user repo branch file)
    (render validated_data primary secondary) t1 t2 h8 h9
  rw [hR1]
  have hR2 := handle_stars_cache_hit render2 up2 user repo branch file primary2
    secondary2 xff2 rid2 t2
    ({ st with
       cache := st.cache.insert (create_cache_key user repo branch file)
         (render validated_data primary secondary) t1
       request_counts := (check_rate_limit st.rate_limiter st.request_counts
         (get_client_ip xff) (create_cache_key user repo branch file) t1).2 })
    (render validated_data primary secondary) _ hget
  rw [hR2]
  refine ⟨rfl, ?_, rfl, rfl, ?_, rfl⟩ <;> simp [add_response_headers]

/-- Witness for C7: a concrete first render is published and the repeat
request is served from the cache byte-identically with `X-Cache: HIT`. -/
theorem C7_witness :
    (handle_stars (fun ys _ _ => generate_svg ys) ⟨.ok ⟨10, "http://dl"⟩, .ok "2023: 1,2,0,0,0,0,0,0,0,0,0,0,0,0,0,0,0,0,0,0,0,0,0,0,0"⟩
      "u" "r" "b" "f.svg" Option.none Option.none Option.none "rid-b" 7
      (handle_stars (fun ys _ _ => generate_svg ys) ⟨.ok ⟨10, "http://dl"⟩, .ok "2023: 1,2,0,0,0,0,0,0,0,0,0,0,0,0,0,0,0,0,0,0,0,0,0,0,0"⟩
        "u" "r" "b" "f.svg" Option.none Option.none Option.none "rid-a" 3
        ⟨⟨300, 600, []⟩, ⟨60, 120, []⟩, ⟨60, 30⟩, []⟩).2.1).1.body =
      (handle_stars (fun ys _ _ => generate_svg ys) ⟨.ok ⟨10, "http://dl"⟩, .ok "2023: 1,2,0,0,0,0,0,0,0,0,0,0,0,0,0,0,0,0,0,0,0,0,0,0,0"⟩
        "u" "r" "b" "f.svg" Option.none Option.none Option.none "rid-a" 3
        ⟨⟨300, 600, []⟩, ⟨60, 120, []⟩, ⟨60, 30⟩, []⟩).1.body ∧
    ("X-Cache", "HIT") ∈
      (handle_stars (fun ys _ _ => generate_svg ys) ⟨.ok ⟨10, "http://dl"⟩, .ok "2023: 1,2,0,0,0,0,0,0,0,0,0,0,0,0,0,0,0,0,0,0,0,0,0,0,0"⟩
        "u" "r" "b" "f.svg" Option.none Option.none Option.none "rid-b" 7
        (handle_stars (fun ys _ _ => generate_svg ys) ⟨.ok ⟨10, "http://dl"⟩, .ok "2023: 1,2,0,0,0,0,0,0,0,0,0,0,0,0,0,0,0,0,0,0,0,0,0,0,0"⟩
          "u" "r" "b" "f.svg" Option.none Option.none Option.none "rid-a" 3
          ⟨⟨300, 600, []⟩, ⟨60, 120, []⟩, ⟨60, 30⟩, []⟩).2.1).1.headers := by
  have h := C7_published_artifact_idempotent (fun ys _ _ => generate_svg ys)
    ⟨.ok ⟨10, "http://dl"⟩, .ok "2023: 1,2,0,0,0,0,0,0,0,0,0,0,0,0,0,0,0,0,0,0,0,0,0,0,0"⟩ "u" "r" "b" "f.svg"
    Option.none Option.none Option.none "rid-a" 3
    ⟨⟨300, 600, []⟩, ⟨60, 120, []⟩, ⟨60, 30⟩, []⟩ ⟨10, "http://dl"⟩ "2023: 1,2,0,0,0,0,0,0,0,0,0,0,0,0,0,0,0,0,0,0,0,0,0,0,0"
    [(2023, [1,2,0,0,0,0,0,0,0,0,0,0,0,0,0,0,0,0,0,0,0,0,0,0,0])] (by decide) (by decide) (by decide) (by decide) (by decide)
    (by decide) (by decide) (fun ys _ _ => generate_svg ys)
    ⟨.ok ⟨10, "http://dl"⟩, .ok "2023: 1,2,0,0,0,0,0,0,0,0,0,0,0,0,0,0,0,0,0,0,0,0,0,0,0"⟩ Option.none Option.none Option.none
    "rid-b" 7 (by decide) (by decide)
  exact ⟨h.2.2.2.1, h.2.2.2.2.1⟩

/-- Claim C6 counterexample: a terminal response served from the negative
cache carries no headers at all — in particular no `X-Request-ID`
correlation header — contradicting the claim that every terminal response
carries one. -/
theorem C6_counterexample :
    (handle_stars (fun _ _ _ => "") ⟨.notFound, .notFound⟩ "u" "r" "b" "f.svg"
      Option.none Option.none Option.none "some-request-id" 5
      ⟨⟨300, 600, []⟩, ⟨60, 120, [("u/r/b/f.svg", ⟨⟨404, "File not found"⟩, 0, 0⟩)]⟩,
       ⟨60, 30⟩, []⟩).1.headers = [] := by
  decide

set_option maxRecDepth 8000 in
/-- Claim C6 (amended): the request id has no effect on the response status
and body, the resulting state or the upstream calls; the two 200 responses
(artifact-cache hit and fresh render) carry the `X-Request-ID` header; but
a negative-cache hit is served with no explicit headers, so it carries no
request id (nor do the other error responses, which are built the same
way). -/
theorem C6_request_id_header :
    (∀ (render : List (Nat × List Nat) → Option String → Option String → String)
       (up : Upstream) (user repo branch file : String)
       (primary secondary xff : Option String) (rid1 rid2 : String) (now : Nat)
       (st : AppState),
      (handle_stars render up user repo branch file primary secondary xff rid1 now st).1.status =
        (handle_stars render up user repo branch file primary secondary xff rid2 now st).1.status ∧
      (handle_stars render up user repo branch file primary secondary xff rid1 now st).1.body =
        (handle_stars render up user repo branch file primary secondary xff rid2 now st).1.body ∧
      (handle_stars render up user repo branch file primary secondary xff rid1 now st).2 =
        (handle_stars render up user repo branch file primary secondary xff rid2 now st).2) ∧
    (∀ (render : List (Nat × List Nat) → Option String → Option String → String)
       (up : Upstream) (user repo branch file : String)
       (primary secondary xff : Option String) (rid : String) (now : Nat)
       (st : AppState) (v : String) (c' : MokaCache String),
      st.cache.get (create_cache_key user repo branch file) now = (some v, c') →
      ("X-Request-ID", rid) ∈
        (handle_stars render up user repo branch file primary secondary xff rid now st).1.headers) ∧
    (∀ (render : List (Nat × List Nat) → Option String → Option String → String)
       (up : Upstream) (user repo branch file : String)
       (primary secondary xff : Option String) (rid : String) (now : Nat)
       (st : AppState) (md : GitHubFileMetadata) (content : String)
       (validated_data : List (Nat × List Nat)),
      (st.cache.get (create_cache_key user repo branch file) now).1 = Option.none →
      (st.error_cache.get (create_cache_key user repo branch file) now).1 = Option.none →
      (check_rate_limit st.rate_limiter st.request_counts (get_client_ip xff)
        (create_cache_key user repo branch file) now).1 = .ok () →
      up.metadataResult = .ok md → ¬ md.size > MAX_FILE_SIZE →
      up.contentResult = .ok content → validate_input content = .ok validated_data →
      ("X-Request-ID", rid) ∈
        (handle_stars render up user repo branch file primary secondary xff rid now st).1.headers) ∧
    (∀ (render : List (Nat × List Nat) → Option String → Option String → String)
       (up : Upstream) (user repo branch file : String)
       (primary secondary xff : Option String) (rid : String) (now : Nat)
       (st : AppState) (ce : CachedError) (ec' : MokaCache CachedError),
      (st.cache.get (create_cache_key user repo branch file) now).1 = Option.none →
      st.error_cache.get (create_cache_key user repo branch file) now = (some ce, ec') →
      (handle_stars render up user repo branch file primary secondary xff rid now st).1.headers = []) := by
  refine ⟨?_, ?_, ?_, ?_⟩
  · intro render up user repo branch file primary secondary xff rid1 rid2 now st
    refine ⟨?_, ?_, ?_⟩ <;>
    · simp only [handle_stars, add_response_headers, errResponse]
      repeat' split <;> try rfl
  · intro render up user repo branch file primary secondary xff rid now st v c' h
    rw [handle_stars_cache_hit render up user repo branch file primary secondary xff
      rid now st v c' h]
    simp [add_response_headers]
  · intro render up user repo branch file primary secondary xff rid now st md content
      validated_data h1 h2 h3 h4 h5 h6 h7
    rw [handle_stars_publish render up user repo branch file primary secondary xff
      rid now st md content validated_data h1 h2 h3 h4 h5 h6 h7]
    simp [add_response_headers]
  · intro render up user repo branch file primary secondary xff rid now st ce ec' h1 h2
    rw [handle_stars_error_hit render up user repo branch file primary secondary xff
      rid now st ce ec' h1 h2]

/-- Witness for C6 at concrete inputs: a cache-hit response carries the
request id while a negative-cache hit response has no headers. -/
theorem C6_witness :
    ("X-Request-ID", "rid-w") ∈
      (handle_stars (fun _ _ _ => "") ⟨.notFound, .notFound⟩ "u" "r" "b" "f.svg"
        Option.none Option.none Option.none "rid-w" 5
        ⟨⟨300, 600, [("u/r/b/f.svg", ⟨"<svg/>", 0, 0⟩)]⟩, ⟨60, 120, []⟩,
         ⟨60, 30⟩, []⟩).1.headers ∧
    (handle_stars (fun _ _ _ => "") ⟨.notFound, .notFound⟩ "u" "r" "b" "f.svg"
      Option.none Option.none Option.none "rid-w" 5
      ⟨⟨300, 600, []⟩, ⟨60, 120, [("u/r/b/f.svg", ⟨⟨500, "boom"⟩, 0, 0⟩)]⟩,
       ⟨60, 30⟩, []⟩).1.headers = [] := by
  refine ⟨C6_request_id_header.2.1 (fun _ _ _ => "") ⟨.notFound, .notFound⟩ "u" "r" "b"
    "f.svg" Option.none Option.none Option.none "rid-w" 5
    ⟨⟨300, 600, [("u/r/b/f.svg", ⟨"<svg/>", 0, 0⟩)]⟩, ⟨60, 120, []⟩, ⟨60, 30⟩, []⟩
    "<svg/>" ⟨300, 600, [("u/r/b/f.svg", ⟨"<svg/>", 0, 5⟩)]⟩ (by decide),
    C6_request_id_header.2.2.2 (fun _ _ _ => "") ⟨.notFound, .notFound⟩ "u" "r" "b"
    "f.svg" Option.none Option.none Option.none "rid-w" 5
    ⟨⟨300, 600, []⟩, ⟨60, 120, [("u/r/b/f.svg", ⟨⟨500, "boom"⟩, 0, 0⟩)]⟩, ⟨60, 30⟩, []⟩
    ⟨500, "boom"⟩ ⟨60, 120, [("u/r/b/f.svg", ⟨⟨500, "boom"⟩, 0, 5⟩)]⟩
    (by decide) (by decide)⟩

end AdventStars
